import Mathlib

/-!
Verification of the structured-query model, SQL compiler and retry
orchestrator of the parkstreet-ai repository (src/ai/agent.py), as a
shallow embedding in Lean 4.

Conventions of the embedding:
- Python `Optional` values become `Option`, Python exceptions become
  `Except String` results of the external collaborators (the reasoning
  oracle and the database engine), and the orchestrator loop becomes a
  fuel-indexed recursion whose fuel is `max_tries - num_tries`.
- Single-quote characters never appear literally in this file; the
  constant `squote` (code point 39) and the one-character string
  `squoteStr` stand for them, so a Python value interpolated between
  single quotes is written `squoteStr ++ v ++ squoteStr`.
-/

namespace Parkstreet

/-- The single-quote character (code point 39). -/
def squote : Char := Char.ofNat 39

/-- The one-character string holding a single quote. -/
def squoteStr : String := String.singleton squote

/-- `class Table(str, Enum)` of agent.py lines 15-18: the closed set of
queryable tables. -/
inductive Table where
  | shipments
  | orders
  | financial_snapshots
deriving DecidableEq

/-- The `.value` of each `Table` member (the enum payload string). -/
def Table.value : Table → String
  | .shipments => "shipments"
  | .orders => "orders"
  | .financial_snapshots => "financial_snapshots"

/-- `class SortOrder(str, Enum)` of agent.py lines 21-23. -/
inductive SortOrder where
  | asc
  | desc
deriving DecidableEq

/-- The `.value` of each `SortOrder` member. -/
def SortOrder.value : SortOrder → String
  | .asc => "ASC"
  | .desc => "DESC"

/-- `class OrderByColumn(BaseModel)` of agent.py lines 26-28. -/
structure OrderByColumn where
  column_name : String
  sort_order : SortOrder
deriving DecidableEq

/-- `class DynamicValue(BaseModel)` of agent.py lines 31-32: a condition
value that references another column. -/
structure DynamicValue where
  column_name : String
deriving DecidableEq

/-- `class Operator(str, Enum)` of agent.py lines 35-41. -/
inductive Operator where
  | eq
  | gt
  | lt
  | le
  | ge
  | ne
deriving DecidableEq

/-- The `.value` of each `Operator` member (the operator symbol). -/
def Operator.value : Operator → String
  | .eq => "="
  | .gt => ">"
  | .lt => "<"
  | .le => "<="
  | .ge => ">="
  | .ne => "!="

/-- The `Union[str, int, DynamicValue]` type of `Condition.value`
(agent.py line 47). -/
inductive CondValue where
  | str (s : String)
  | int (n : Int)
  | dyn (d : DynamicValue)
deriving DecidableEq

/-- `class Condition(BaseModel)` of agent.py lines 44-47. -/
structure Condition where
  column : String
  operator : Operator
  value : CondValue
deriving DecidableEq

/-- `class SqlQuery(BaseModel)` of agent.py lines 50-57, field order as in
the source: table, projected columns, conditions, order-by columns,
group-by columns. -/
structure SqlQuery where
  table_name : Table
  columns : List String
  conditions : List Condition
  order_by_columns : List OrderByColumn
  group_by_columns : List String
deriving DecidableEq

/-- The table names that are keys of the `semantic_model` dictionary of
agent.py lines 60-327 (the Schema Registry). -/
def semantic_model_tables : List String :=
  ["shipments", "orders", "financial_snapshots"]

/-- The column names of each table in the `semantic_model` dictionary of
agent.py lines 60-327. -/
def semantic_model_columns : Table → List String
  | .shipments =>
      ["shipment_id", "status", "departure_date", "arrival_date",
       "cleared_customs", "pol", "pod", "entry_number", "client_id",
       "account_manager", "container_number", "cargo_type", "quoted_rate",
       "date_added", "last_updated", "supplier"]
  | .orders =>
      ["id", "transaction_type", "po_number", "client_id", "customer_id",
       "so_number", "approval_status", "so_status", "delivery_date",
       "special_instructions", "posted_date", "updated_at",
       "delivery_start_datetime", "delivery_end_datetime", "freight",
       "carrier", "delivery_cost", "fuel_surcharge", "fb_status",
       "sync_to_warehouse", "credit_review_status", "credit_review_score",
       "order_group_id", "order_sequence"]
  | .financial_snapshots =>
      ["id", "client_id", "accounts_receivable", "accounts_payable",
       "cash_balance", "net_inventory_value", "total_net_assets",
       "last_month_sales", "last_month_deposits", "available_inventory_qty",
       "inventory_on_water", "last_updated", "last_deposit_date",
       "credit_risk", "credit_risk_last_change", "cash_balance_notification",
       "credit_risk_notification", "status_id", "client_type",
       "relation_manager_id"]

/-- The rendering of a condition value inside `format_condition`
(agent.py lines 369-375): a `DynamicValue` becomes the bare referenced
column name, a string is wrapped in single quotes with no escaping, and
an integer is rendered by `str(...)` as decimal text. -/
def cond_value_str : CondValue → String
  | .dyn d => d.column_name
  | .str s => squoteStr ++ s ++ squoteStr
  | .int n => toString n

/-- The Python `str.lower()` used by the identifier-quoting checks,
character by character (only ASCII letters matter for the comparison
with the all-ASCII word `name`). -/
def str_lower (s : String) : String :=
  String.mk (s.data.map Char.toLower)

/-- The identifier-quoting expression that appears in `format_condition`
(line 367), `format_order_by_column` (line 391) and the group-by list
comprehension (line 527): wrap in double quotes when the name lowercased
equals `name`, otherwise emit it bare. -/
def quote_ident (col : String) : String :=
  if str_lower col == "name" then "\"" ++ col ++ "\"" else col

/-- `format_condition` of agent.py lines 356-377. -/
def format_condition (condition : Condition) : String :=
  quote_ident condition.column ++ " " ++ condition.operator.value ++ " "
    ++ cond_value_str condition.value

/-- `format_order_by_column` of agent.py lines 380-393. -/
def format_order_by_column (order_by : OrderByColumn) : String :=
  quote_ident order_by.column_name ++ " " ++ order_by.sort_order.value

/-- The body of the group-by list comprehension of agent.py lines 526-529. -/
def format_group_by_column (column : String) : String :=
  quote_ident column

/-- The body of the SELECT-column loop of agent.py lines 508-512. Unlike
every other identifier position, the comparison here is the exact string
equality `col == "name"`, not a case-insensitive one. -/
def format_select_column (col : String) : String :=
  if col == "name" then "\"name\"" else col

/-- `query_limit = 10` of agent.py line 505. -/
def query_limit : Nat := 10

/-- The SELECT-list text of agent.py line 513: join the formatted columns
with a comma, or `*` when the column list is empty. -/
def columns_clause (cols : List String) : String :=
  let formatted_columns := cols.map format_select_column
  if formatted_columns.isEmpty then "*"
  else String.intercalate ", " formatted_columns

set_option linter.unusedVariables false in
/-- The query-building section of `get_answer_using_sql`, agent.py lines
505-539, as a pure function from the query model to SQL text. The
`team_id` parameter is the identifier captured by the enclosing
`get_analytics_agent`; the two lines that would append the tenant
predicate `organization_id = team_id` to the WHERE clause (lines 520 and
523) are commented out in the source, so `team_id` is not used by the
body. -/
def compile_query (team_id : Option String) (sql_query : SqlQuery) :
    String :=
  let query := "SELECT " ++ columns_clause sql_query.columns ++ " FROM "
    ++ sql_query.table_name.value
  let query :=
    if sql_query.conditions.isEmpty then query
    else query ++ " WHERE "
      ++ String.intercalate " AND " (sql_query.conditions.map format_condition)
  let query :=
    if sql_query.group_by_columns.isEmpty then query
    else query ++ " GROUP BY "
      ++ String.intercalate ", "
        (sql_query.group_by_columns.map format_group_by_column)
  let query :=
    if sql_query.order_by_columns.isEmpty then query
    else query ++ " ORDER BY "
      ++ String.intercalate ", "
        (sql_query.order_by_columns.map format_order_by_column)
  query ++ " LIMIT " ++ toString query_limit

/-- `run_query` of agent.py lines 330-353. The database engine is the
external collaborator: given the SQL text it either produces the text
rendering of the fetched rows or an exception message; `run_query`
catches the exception and turns either outcome into a plain string. -/
def run_query (engine : String → Except String String) (query : String) :
    String :=
  match engine query with
  | .ok result => "Result: " ++ result ++ " obtained from the query: " ++ query
  | .error e => "Error: " ++ e ++ " occurred while running the query: " ++ query

/-- The Python enum member name of each `Operator` member. -/
def Operator.pyname : Operator → String
  | .eq => "eq"
  | .gt => "gt"
  | .lt => "lt"
  | .le => "le"
  | .ge => "ge"
  | .ne => "ne"

/-- The Python enum member name of each `SortOrder` member. -/
def SortOrder.pyname : SortOrder → String
  | .asc => "asc"
  | .desc => "desc"

/-- The Python rendering of a string enum member, with the member name
and the single-quoted payload value in angle brackets. -/
def py_enum_repr (cls member value : String) : String :=
  "<" ++ cls ++ "." ++ member ++ ": " ++ squoteStr ++ value ++ squoteStr
    ++ ">"

/-- The Python rendering of a list of strings: brackets around the
comma-separated single-quoted elements. -/
def py_str_list (xs : List String) : String :=
  "[" ++ String.intercalate ", " (xs.map (fun s => squoteStr ++ s ++ squoteStr))
    ++ "]"

/-- The Python rendering of a condition value inside the repr of a
`Condition`: single-quoted for a string, decimal for an int, and the
nested-model rendering for a `DynamicValue`. -/
def cond_value_repr : CondValue → String
  | .str s => squoteStr ++ s ++ squoteStr
  | .int n => toString n
  | .dyn d =>
      "DynamicValue(column_name=" ++ squoteStr ++ d.column_name ++ squoteStr
        ++ ")"

/-- The Python rendering of a `Condition` as a nested pydantic model. -/
def condition_repr (c : Condition) : String :=
  "Condition(column=" ++ squoteStr ++ c.column ++ squoteStr
    ++ ", operator=" ++ py_enum_repr "Operator" c.operator.pyname
      c.operator.value
    ++ ", value=" ++ cond_value_repr c.value ++ ")"

/-- The Python rendering of an `OrderByColumn` as a nested pydantic
model. -/
def order_by_repr (ob : OrderByColumn) : String :=
  "OrderByColumn(column_name=" ++ squoteStr ++ ob.column_name ++ squoteStr
    ++ ", sort_order=" ++ py_enum_repr "SortOrder" ob.sort_order.pyname
      ob.sort_order.value
    ++ ")"

/-- The text rendering of an `SqlQuery` model when it is interpolated
into the retry prompt after the text `The previous query was: `
(agent.py line 489): the space-separated field=value rendering that
Python produces for the pydantic object, with enum members in angle
brackets, string values single-quoted and nested models rendered with
their class name, in declaration order of the fields. -/
def sql_query_repr (q : SqlQuery) : String :=
  "table_name="
      ++ py_enum_repr "Table" q.table_name.value q.table_name.value
    ++ " columns=" ++ py_str_list q.columns
    ++ " conditions=["
      ++ String.intercalate ", " (q.conditions.map condition_repr) ++ "]"
    ++ " order_by_columns=["
      ++ String.intercalate ", " (q.order_by_columns.map order_by_repr)
      ++ "]"
    ++ " group_by_columns=" ++ py_str_list q.group_by_columns

/-- The base prompt of each attempt, agent.py line 485. -/
def base_prompt (question expected_answer : String) : String :=
  "Write a query to answer the following question: " ++ question
    ++ "\nExpected Answer: " ++ expected_answer

/-- The feedback section appended to the prompt when both an error
message and a previous query are recorded, agent.py lines 486-494. -/
def retry_feedback (previous_query : SqlQuery) (error_message : String) :
    String :=
  "\n\n" ++ "The previous query was not correct, please try again."
    ++ "\nThe previous query was: " ++ sql_query_repr previous_query
    ++ "\n" ++ "The error message was: " ++ error_message
    ++ "\n" ++ "Please correct the query and try again."

/-- `max_tries = 3` of agent.py line 479. -/
def max_tries : Nat := 3

/-- The observable outcome of one run of the retry loop of
`get_answer_using_sql`: the value the Python function returns (`none`
models the Python `None`), the final value of `num_tries`, the prompts
sent to the oracle in attempt order, and whether the
`except`-around-`run_query` branch of agent.py lines 543-546 was ever
taken. -/
structure RunTrace where
  result : Option String
  attempts : Nat
  prompts : List String
  exec_exception_seen : Bool
deriving DecidableEq

/-- The `while` loop of `get_answer_using_sql`, agent.py lines 482-546,
as a fuel recursion: the fuel is `max_tries - num_tries`, so the guard
`result is None and num_tries < max_tries` is the pair of the early
return on success and the fuel running out. The `oracle` argument models
`sql_agent.run` (attempt number and prompt in, parsed `SqlQuery` or
exception message out) and `runner` models the call `run_query(query)`
at line 542 (an `.error` outcome models `run_query` raising, which the
handler of lines 543-546 answers by setting `error_message = None` and
continuing). On an oracle exception (lines 501-503) the error message is
recorded and the loop continues with `previous_query` unchanged; on
oracle success `previous_query` is set (line 500) before the query is
built and run. -/
def sql_loop (oracle : Nat → String → Except String SqlQuery)
    (runner : String → Except String String) (team_id : Option String)
    (question expected_answer : String) :
    Nat → Nat → Option String → Option SqlQuery → List String → Bool →
      RunTrace
  | 0, num_tries, _, _, prompts, seen =>
      ⟨none, num_tries, prompts.reverse, seen⟩
  | fuel + 1, num_tries, error_message, previous_query, prompts, seen =>
      let tries := num_tries + 1
      let prompt :=
        match error_message, previous_query with
        | some em, some pq =>
            base_prompt question expected_answer ++ retry_feedback pq em
        | _, _ => base_prompt question expected_answer
      match oracle tries prompt with
      | .error e =>
          sql_loop oracle runner team_id question expected_answer
            fuel tries (some e) previous_query (prompt :: prompts) seen
      | .ok sql_query =>
          let query := compile_query team_id sql_query
          match runner query with
          | .error _ =>
              sql_loop oracle runner team_id question expected_answer
                fuel tries none (some sql_query) (prompt :: prompts) true
          | .ok res =>
              ⟨some res, tries, (prompt :: prompts).reverse, seen⟩

/-- `get_answer_using_sql` of agent.py lines 456-558, instantiated with
the actual `run_query`: since `run_query` catches every engine exception
and returns a string, the runner passed to the loop always succeeds. The
final lines 548-551 assign the terminal message to the local
`error_message` when `result` is still `None` and then return `result`
itself, so the exhausted outcome of the function is the Python `None`,
modeled by a trace whose `result` is `none`. -/
def get_answer_using_sql (oracle : Nat → String → Except String SqlQuery)
    (engine : String → Except String String) (team_id : Option String)
    (question expected_answer : String) : RunTrace :=
  sql_loop oracle (fun q => .ok (run_query engine q)) team_id
    question expected_answer max_tries 0 none none [] false

/-- The terminal failure message assigned (to a local variable that is
not returned) at agent.py line 549. -/
def terminal_message : String :=
  "I couldn" ++ squoteStr
    ++ "t find the answer to your question, please try again."

/-- Whether `pat` is a leading segment of `l`. -/
def leadsWith : List Char → List Char → Bool
  | [], _ => true
  | _ :: _, [] => false
  | p :: ps, c :: cs => p == c && leadsWith ps cs

/-- Whether `pat` occurs contiguously somewhere inside `l`. -/
def occursIn (pat : List Char) : List Char → Bool
  | [] => leadsWith pat []
  | c :: cs => leadsWith pat (c :: cs) || occursIn pat cs

/-- Whether the string `pat` occurs contiguously inside the string `s`. -/
def str_occurs (pat s : String) : Bool :=
  occursIn pat.data s.data

/-- SQL lexing of a single-quoted string literal, starting just after the
opening quote: collect the characters of the literal, treating a doubled
quote as one escaped quote character, and stop at the closing quote,
returning the literal content together with the characters that follow
the closing quote. Returns `none` for an unterminated literal. -/
def sql_scan_literal : List Char → Option (List Char × List Char)
  | [] => none
  | c :: rest =>
      if c = squote then
        match rest with
        | [] => some ([], [])
        | c2 :: rest2 =>
            if c2 = squote then
              (sql_scan_literal rest2).map (fun p => (squote :: p.1, p.2))
            else some ([], rest)
      else
        (sql_scan_literal rest).map (fun p => (c :: p.1, p.2))

/-- Skip to the first single quote of the text and lex the string literal
that starts there, per `sql_scan_literal`. -/
def sql_find_literal : List Char → Option (List Char × List Char)
  | [] => none
  | c :: rest =>
      if c = squote then sql_scan_literal rest else sql_find_literal rest

/-- The content of the first single-quoted SQL string literal of the
text, together with the text that follows its closing quote. -/
def sql_first_literal (s : String) : Option (String × String) :=
  (sql_find_literal s.data).map (fun p => (String.mk p.1, String.mk p.2))

/-- The `SELECT ... FROM ...` segment of the compiled text
(agent.py line 515). -/
def select_part (q : SqlQuery) : String :=
  "SELECT " ++ columns_clause q.columns ++ " FROM " ++ q.table_name.value

/-- The optional WHERE segment of the compiled text
(agent.py lines 517-519). -/
def where_part (q : SqlQuery) : String :=
  if q.conditions.isEmpty then ""
  else " WHERE " ++ String.intercalate " AND " (q.conditions.map format_condition)

/-- The optional GROUP BY segment of the compiled text
(agent.py lines 525-530). -/
def group_part (q : SqlQuery) : String :=
  if q.group_by_columns.isEmpty then ""
  else " GROUP BY "
    ++ String.intercalate ", " (q.group_by_columns.map format_group_by_column)

/-- The optional ORDER BY segment of the compiled text
(agent.py lines 532-537). -/
def order_part (q : SqlQuery) : String :=
  if q.order_by_columns.isEmpty then ""
  else " ORDER BY "
    ++ String.intercalate ", " (q.order_by_columns.map format_order_by_column)

/-- A fixed query model used by the concrete scenario theorems. -/
def m0 : SqlQuery := ⟨.shipments, ["shipment_id"], [], [], []⟩

/-- An oracle stub that answers every prompt with the same model. -/
def const_oracle (m : SqlQuery) : Nat → String → Except String SqlQuery :=
  fun _ _ => .ok m

/-- An oracle stub that raises on every attempt. -/
def fail_oracle (msg : String) : Nat → String → Except String SqlQuery :=
  fun _ _ => .error msg

/-- An oracle stub that raises on attempt 1 and succeeds afterwards. -/
def fail_once_oracle (msg : String) (m : SqlQuery) :
    Nat → String → Except String SqlQuery :=
  fun n _ => if n = 1 then .error msg else .ok m

/-- A database engine stub that fails every query. -/
def fail_engine (msg : String) : String → Except String String :=
  fun _ => .error msg

/-- A database engine stub that returns the same row text for every
query. -/
def ok_engine (rows : String) : String → Except String String :=
  fun _ => .ok rows

/-! ## Helper lemmas -/

theorem str_append_empty (s : String) : s ++ "" = s := by
  apply String.ext
  simp [String.data_append]

theorem str_append_assoc (a b c : String) : a ++ b ++ c = a ++ (b ++ c) := by
  apply String.ext
  simp [String.data_append]

/-- The compiled text is the concatenation of the four clause segments
followed by the LIMIT clause. -/
theorem compile_query_clauses (tid : Option String) (q : SqlQuery) :
    compile_query tid q
      = select_part q ++ where_part q ++ group_part q ++ order_part q
        ++ " LIMIT " ++ toString query_limit := by
  cases q with
  | mk t cols conds obs gbs =>
    simp only [compile_query, select_part, where_part, group_part, order_part]
    cases hc : conds.isEmpty <;> cases hg : gbs.isEmpty <;>
      cases ho : obs.isEmpty <;>
        simp [hc, hg, ho, str_append_empty, str_append_assoc]

/-- The compiled text is never the empty string. -/
theorem compile_query_ne_empty (tid : Option String) (q : SqlQuery) :
    compile_query tid q ≠ "" := by
  intro he
  have hlen : (compile_query tid q).length
      = (select_part q ++ where_part q ++ group_part q ++ order_part q
          ++ " LIMIT ").length + (toString query_limit).length := by
    rw [compile_query_clauses, String.length_append]
  have h9 : ((select_part q ++ where_part q ++ group_part q ++ order_part q
      ++ " LIMIT ").length : Nat)
      = (select_part q ++ where_part q ++ group_part q
          ++ order_part q).length + 7 := by
    have h7 : (" LIMIT " : String).length = 7 := rfl
    rw [String.length_append, h7]
  have h0 : (compile_query tid q).length = 0 := by
    rw [he]
    rfl
  omega

/-- The attempt counter of the loop never exceeds the starting counter
plus the remaining fuel. -/
theorem sql_loop_attempts_le
    (oracle : Nat → String → Except String SqlQuery)
    (runner : String → Except String String) (tid : Option String)
    (qn ea : String) :
    ∀ (fuel nt : Nat) (em : Option String) (pq : Option SqlQuery)
      (ps : List String) (seen : Bool),
      (sql_loop oracle runner tid qn ea fuel nt em pq ps seen).attempts
        ≤ nt + fuel := by
  intro fuel
  induction fuel with
  | zero => intro nt em pq ps seen; simp [sql_loop]
  | succ fuel ih =>
      intro nt em pq ps seen
      simp only [sql_loop]
      split
      · exact (ih _ _ _ _ _).trans (by omega)
      · split
        · exact (ih _ _ _ _ _).trans (by omega)
        · simp

/-- When the runner never fails (as it does not when it wraps
`run_query`), the flag recording the `except` branch around the
execution call keeps its starting value. -/
theorem sql_loop_ok_runner_exec_seen
    (oracle : Nat → String → Except String SqlQuery)
    (f : String → String) (tid : Option String) (qn ea : String) :
    ∀ (fuel nt : Nat) (em : Option String) (pq : Option SqlQuery)
      (ps : List String) (seen : Bool),
      (sql_loop oracle (fun s => Except.ok (f s)) tid qn ea
          fuel nt em pq ps seen).exec_exception_seen = seen := by
  intro fuel
  induction fuel with
  | zero => intro nt em pq ps seen; simp [sql_loop]
  | succ fuel ih =>
      intro nt em pq ps seen
      simp only [sql_loop]
      split
      · exact ih _ _ _ _ _
      · simp

/-- Appending strings never loses a membership fact about the absence of
a character. -/
theorem no_squote_append (a b : String) (ha : squote ∉ a.data)
    (hb : squote ∉ b.data) : squote ∉ (a ++ b).data := by
  simp [String.data_append, ha, hb]

/-- No operator symbol contains a single quote. -/
theorem squote_not_mem_op (op : Operator) : squote ∉ op.value.data := by
  cases op <;> decide

/-- Identifier quoting adds only double quotes, so it preserves the
absence of single quotes. -/
theorem squote_not_mem_quote_ident (col : String)
    (h : squote ∉ col.data) : squote ∉ (quote_ident col).data := by
  unfold quote_ident
  split
  · exact no_squote_append _ _ (no_squote_append _ _ (by decide) h) (by decide)
  · exact h

/-- Skipping a quote-free prefix does not change the first literal found. -/
theorem sql_find_literal_append (l1 l2 : List Char) (h : squote ∉ l1) :
    sql_find_literal (l1 ++ l2) = sql_find_literal l2 := by
  induction l1 with
  | nil => rfl
  | cons c cs ih =>
      rw [List.mem_cons, not_or] at h
      have hc : ¬(c = squote) := fun e => h.1 e.symm
      simp [sql_find_literal, hc, ih h.2]

/-- Lexing a quote-free text followed by a closing quote yields exactly
that text as the literal content, with nothing after it. -/
theorem sql_scan_literal_no_squote (v : List Char) (h : squote ∉ v) :
    sql_scan_literal (v ++ [squote]) = some (v, []) := by
  induction v with
  | nil => simp [sql_scan_literal]
  | cons a as ih =>
      rw [List.mem_cons, not_or] at h
      have ha : ¬(a = squote) := fun e => h.1 e.symm
      cases as with
      | nil => simp [sql_scan_literal, ha]
      | cons b as2 =>
          simp only [List.cons_append, sql_scan_literal, ha, if_false,
            ite_false]
          have h2 := ih h.2
          rw [List.cons_append] at h2
          simp [ha, h2]

/-- The condition rendering rule as the specification words it: the
quoted-or-bare column name, a space, the operator symbol, a space, and
the value, where a numeric value is decimal text, a string value is
single-quoted, and a column-reference value is the bare referenced
column name. -/
def spec_format_condition (c : Condition) : String :=
  (if str_lower c.column == "name" then "\"" ++ c.column ++ "\"" else c.column)
    ++ " " ++ c.operator.value ++ " "
    ++ (match c.value with
        | .int n => toString n
        | .str s => squoteStr ++ s ++ squoteStr
        | .dyn d => d.column_name)

/-! ## Claims -/

/-- Claim C1, counterexample: the tenant predicate is omitted even when a
tenant identifier is supplied. With tenant id 42 and zero conditions the
compiled text has no WHERE clause at all and never mentions
organization_id, and with the single condition status = 3 the WHERE
clause is only WHERE status = 3: the two lines of agent.py that would
append the predicate (520 and 523) are commented out. -/
theorem c1_tenant_scoping_counterexample :
    compile_query (some "42") ⟨.shipments, [], [], [], []⟩
      = "SELECT * FROM shipments LIMIT 10"
    ∧ str_occurs "organization_id"
        (compile_query (some "42") ⟨.shipments, [], [], [], []⟩) = false
    ∧ str_occurs "WHERE"
        (compile_query (some "42") ⟨.shipments, [], [], [], []⟩) = false
    ∧ compile_query (some "42")
        ⟨.shipments, [], [⟨"status", .eq, .int 3⟩], [], []⟩
      = "SELECT * FROM shipments WHERE status = 3 LIMIT 10"
    ∧ str_occurs "organization_id"
        (compile_query (some "42")
          ⟨.shipments, [], [⟨"status", .eq, .int 3⟩], [], []⟩) = false := by
  decide

/-- Claim C1, amended: the compiler ignores the supplied tenant
identifier entirely, so the compiled SQL is the same for every tenant
context and never contains the tenant predicate; with tenant id 42 and
zero conditions there is no WHERE clause, and with one condition
status = 3 the WHERE clause is WHERE status = 3 without the tenant
predicate. -/
theorem c1_tenant_scoping_amended :
    (∀ (tid1 tid2 : Option String) (q : SqlQuery),
        compile_query tid1 q = compile_query tid2 q)
    ∧ compile_query (some "42") ⟨.shipments, [], [], [], []⟩
        = "SELECT * FROM shipments LIMIT 10"
    ∧ compile_query (some "42")
        ⟨.shipments, [], [⟨"status", .eq, .int 3⟩], [], []⟩
        = "SELECT * FROM shipments WHERE status = 3 LIMIT 10"
    ∧ str_occurs "organization_id"
        (compile_query (some "42")
          ⟨.shipments, [], [⟨"status", .eq, .int 3⟩], [], []⟩) = false :=
  ⟨fun _ _ _ => rfl, by decide, by decide, by decide⟩

/-- Claim C2, code bug: when every attempt fails the loop exhausts, the
terminal could-not-find-an-answer message is assigned to the local
variable error_message (agent.py line 549), but line 551 returns the
variable result, which is still None; the caller therefore receives the
Python None and not the terminal message string the function is
documented to return. -/
theorem c2_exhausted_returns_none :
    (get_answer_using_sql (fail_oracle "unparseable response")
        (ok_engine "[]") none "q" "a").result = none
    ∧ (get_answer_using_sql (fail_oracle "unparseable response")
        (ok_engine "[]") none "q" "a").result ≠ some terminal_message := by
  decide

/-- Claim C3, counterexample: with an oracle stub that always returns
the model m0 and a database engine that fails every query, the
orchestrator performs exactly one attempt, not the configured three:
run_query converts the engine failure into a normal Error string, the
loop treats it as a result and terminates. -/
theorem c3_retry_count_counterexample :
    (get_answer_using_sql (const_oracle m0)
        (fail_engine "relation does not exist") none "q" "a").attempts = 1
    ∧ (get_answer_using_sql (const_oracle m0)
        (fail_engine "relation does not exist") none "q" "a").attempts
      ≠ 3 := by
  decide

/-- Claim C3, amended: the attempt counter never exceeds the ceiling of
3, but an execution failure at the database engine does not consume
further attempts: the engine failure is stringified by run_query and
returned as the result of the first attempt. The full three attempts are
performed only when the oracle call itself fails on every attempt, and
then the loop ends with the exhausted outcome (the Python None). -/
theorem c3_retry_termination_amended :
    (∀ (oracle : Nat → String → Except String SqlQuery)
        (engine : String → Except String String) (tid : Option String)
        (qn ea : String),
        (get_answer_using_sql oracle engine tid qn ea).attempts ≤ max_tries)
    ∧ (get_answer_using_sql (const_oracle m0)
        (fail_engine "relation does not exist") none "q" "a").attempts = 1
    ∧ (get_answer_using_sql (const_oracle m0)
        (fail_engine "relation does not exist") none "q" "a").result
      = some ("Error: relation does not exist occurred while running the query: SELECT shipment_id FROM shipments LIMIT 10")
    ∧ (get_answer_using_sql (fail_oracle "could not parse")
        (fail_engine "x") none "q" "a").attempts = 3
    ∧ (get_answer_using_sql (fail_oracle "could not parse")
        (fail_engine "x") none "q" "a").result = none := by
  refine ⟨?_, by decide, by decide, by decide, by decide⟩
  intro oracle engine tid qn ea
  have h := sql_loop_attempts_le oracle (fun q => .ok (run_query engine q))
    tid qn ea max_tries 0 none none [] false
  simpa [get_answer_using_sql] using h

/-- Claim C4, counterexample: a string value containing a single quote
escapes its quoting context, because the compiler wraps string values in
single quotes without escaping. For the value a-quote-b the first SQL
string literal of the rendered condition is just a, and the remaining
characters of the value fall outside the literal. -/
theorem c4_literal_confinement_counterexample :
    sql_first_literal
        (format_condition
          ⟨"pol", .eq, .str ("a" ++ squoteStr ++ "b")⟩)
      = some ("a", "b" ++ squoteStr)
    ∧ some (("a" : String), ("b" ++ squoteStr : String))
      ≠ some (("a" ++ squoteStr ++ "b" : String), ("" : String)) := by
  decide

/-- Claim C4, amended: a string value that contains no single quote
remains confined inside the single-quoted literal of the rendered
condition (the first SQL string literal of the output is exactly the
value, and nothing follows its closing quote), and a column-reference
value is substituted bare, as the referenced column name only; but a
value containing a single quote is not confined, per the
counterexample. -/
theorem c4_literal_confinement_amended :
    (∀ (col : String) (op : Operator) (v : String),
        squote ∉ col.data → squote ∉ v.data →
        sql_first_literal (format_condition ⟨col, op, .str v⟩)
          = some (v, ""))
    ∧ (∀ (col : String) (op : Operator) (d : DynamicValue),
        format_condition ⟨col, op, .dyn d⟩
          = quote_ident col ++ " " ++ op.value ++ " " ++ d.column_name) := by
  constructor
  · intro col op v hcol hv
    have hpre : squote ∉ ((quote_ident col ++ " " ++ op.value ++ " ") :
        String).data :=
      no_squote_append _ _
        (no_squote_append _ _
          (no_squote_append _ _ (squote_not_mem_quote_ident col hcol)
            (by decide))
          (squote_not_mem_op op))
        (by decide)
    have h1 : format_condition ⟨col, op, .str v⟩
        = (quote_ident col ++ " " ++ op.value ++ " ")
          ++ (squoteStr ++ v ++ squoteStr) := rfl
    rw [h1]
    unfold sql_first_literal
    rw [String.data_append, sql_find_literal_append _ _ hpre]
    have h2 : ((squoteStr ++ v ++ squoteStr) : String).data
        = squote :: (v.data ++ [squote]) := by
      simp [squoteStr, String.data_append, String.singleton]
    rw [h2]
    have h3 : sql_find_literal (squote :: (v.data ++ [squote]))
        = sql_scan_literal (v.data ++ [squote]) := by
      simp [sql_find_literal]
    rw [h3, sql_scan_literal_no_squote v.data hv]
    rfl
  · intro col op d
    rfl

/-- Witness for the amended claim C4 at the concrete condition
pol = LAX: the value LAX contains no single quote and is confined. -/
theorem c4_literal_confinement_witness :
    sql_first_literal (format_condition ⟨"pol", .eq, .str "LAX"⟩)
      = some ("LAX", "") :=
  c4_literal_confinement_amended.1 "pol" .eq "LAX" (by decide) (by decide)

/-- Claim C5, code bug: with an oracle stub that raises boom on attempt
1 and succeeds on attempt 2, the orchestrator does return the attempt-2
result, but the attempt-2 prompt is identical to the attempt-1 base
prompt and does not contain the attempt-1 error text: the feedback
section requires both error_message and previous_query to be set
(agent.py line 486), previous_query is only assigned after an oracle
success (line 500), and the handler around run_query resets
error_message to None (line 545), so the corrective-feedback prompt is
never built on any path. -/
theorem c5_retry_prompt_code_bug :
    (get_answer_using_sql (fail_once_oracle "boom" m0) (ok_engine "[]")
        none "q" "a").attempts = 2
    ∧ (get_answer_using_sql (fail_once_oracle "boom" m0) (ok_engine "[]")
        none "q" "a").result
      = some ("Result: [] obtained from the query: SELECT shipment_id FROM shipments LIMIT 10")
    ∧ (get_answer_using_sql (fail_once_oracle "boom" m0) (ok_engine "[]")
        none "q" "a").prompts
      = [base_prompt "q" "a", base_prompt "q" "a"]
    ∧ str_occurs "boom"
        ((get_answer_using_sql (fail_once_oracle "boom" m0)
          (ok_engine "[]") none "q" "a").prompts.getD 1 "") = false := by
  decide

/-- Claim C6, counterexample: a projected column whose name
case-insensitively equals name but is not exactly lowercase, such as
Name, is rendered bare in the SELECT list, because the SELECT-list check
of agent.py line 509 is the exact comparison col == "name" while every
other position lowercases first. -/
theorem c6_identifier_quoting_counterexample :
    compile_query none ⟨.shipments, ["Name"], [], [], []⟩
      = "SELECT Name FROM shipments LIMIT 10"
    ∧ str_lower "Name" = "name"
    ∧ str_occurs "\"Name\""
        (compile_query none ⟨.shipments, ["Name"], [], [], []⟩) = false := by
  decide

/-- Claim C6, amended: condition columns, group-by columns and order-by
columns are double-quoted exactly when their name lowercased equals
name; the SELECT list instead uses the exact comparison with the
lowercase string name, so a projected column such as Name renders bare
there while the same identifier is quoted in WHERE, GROUP BY and
ORDER BY. -/
theorem c6_identifier_quoting_amended :
    (∀ c : Condition, str_lower c.column = "name" →
        format_condition c
          = "\"" ++ c.column ++ "\"" ++ " " ++ c.operator.value ++ " "
            ++ cond_value_str c.value)
    ∧ (∀ c : Condition, str_lower c.column ≠ "name" →
        format_condition c
          = c.column ++ " " ++ c.operator.value ++ " "
            ++ cond_value_str c.value)
    ∧ (∀ ob : OrderByColumn, str_lower ob.column_name = "name" →
        format_order_by_column ob
          = "\"" ++ ob.column_name ++ "\"" ++ " " ++ ob.sort_order.value)
    ∧ (∀ ob : OrderByColumn, str_lower ob.column_name ≠ "name" →
        format_order_by_column ob
          = ob.column_name ++ " " ++ ob.sort_order.value)
    ∧ (∀ col : String, str_lower col = "name" →
        format_group_by_column col = "\"" ++ col ++ "\"")
    ∧ (∀ col : String, str_lower col ≠ "name" →
        format_group_by_column col = col)
    ∧ format_select_column "name" = "\"name\""
    ∧ (∀ col : String, col ≠ "name" → format_select_column col = col)
    ∧ compile_query none
        ⟨.shipments, ["Name"], [⟨"Name", .eq, .int 1⟩], [⟨"Name", .asc⟩],
          ["Name"]⟩
      = "SELECT Name FROM shipments WHERE \"Name\" = 1 GROUP BY \"Name\" ORDER BY \"Name\" ASC LIMIT 10"
    ∧ compile_query none
        ⟨.shipments, ["status"], [⟨"status", .eq, .int 1⟩],
          [⟨"status", .asc⟩], ["status"]⟩
      = "SELECT status FROM shipments WHERE status = 1 GROUP BY status ORDER BY status ASC LIMIT 10" := by
  refine ⟨?_, ?_, ?_, ?_, ?_, ?_, by decide, ?_, by decide, by decide⟩
  · intro c h
    simp [format_condition, quote_ident, h]
  · intro c h
    simp [format_condition, quote_ident, h]
  · intro ob h
    simp [format_order_by_column, quote_ident, h]
  · intro ob h
    simp [format_order_by_column, quote_ident, h]
  · intro col h
    simp [format_group_by_column, quote_ident, h]
  · intro col h
    simp [format_group_by_column, quote_ident, h]
  · intro col h
    simp [format_select_column, h]

/-- Witness for the amended claim C6 at concrete identifiers: the
condition column NAME is quoted case-insensitively, the order-by and
group-by column status stays bare, and the projected column Name stays
bare. -/
theorem c6_identifier_quoting_witness :
    format_condition ⟨"NAME", .eq, .int 7⟩
      = "\"" ++ "NAME" ++ "\"" ++ " " ++ Operator.eq.value ++ " "
        ++ cond_value_str (.int 7)
    ∧ format_order_by_column ⟨"status", .asc⟩
      = "status" ++ " " ++ SortOrder.asc.value
    ∧ format_group_by_column "status" = "status"
    ∧ format_select_column "Name" = "Name" :=
  ⟨c6_identifier_quoting_amended.1 ⟨"NAME", .eq, .int 7⟩ (by decide),
   c6_identifier_quoting_amended.2.2.2.1 ⟨"status", .asc⟩ (by decide),
   c6_identifier_quoting_amended.2.2.2.2.2.1 "status" (by decide),
   c6_identifier_quoting_amended.2.2.2.2.2.2.2.1 "Name" (by decide)⟩

/-- Claim C7, counterexample: a query model with an empty column name
compiles without any failure; the compiler is a total function, there is
no InvalidQueryModel error anywhere in the code, and the produced SQL
text is nonempty. -/
theorem c7_invalid_model_counterexample :
    compile_query none ⟨.shipments, [""], [], [], []⟩
      = "SELECT  FROM shipments LIMIT 10"
    ∧ ("SELECT  FROM shipments LIMIT 10" : String) ≠ "" := by
  decide

/-- Claim C7, amended: a table outside the Schema Registry is
unrepresentable, because the table field of the query model is the
closed three-member enumeration whose members are exactly the registry
tables; column names, including empty ones, are not validated at all:
compilation always succeeds and always produces nonempty SQL text, and
no InvalidQueryModel error exists in the code. -/
theorem c7_invalid_model_amended :
    (∀ t : Table, t.value ∈ semantic_model_tables)
    ∧ (∀ (tid : Option String) (q : SqlQuery), compile_query tid q ≠ "")
    ∧ compile_query none ⟨.shipments, [""], [], [], []⟩
        = "SELECT  FROM shipments LIMIT 10" :=
  ⟨by intro t; cases t <;> decide,
   fun tid q => compile_query_ne_empty tid q,
   by decide⟩

/-- Claim C8: for every query model the compiled text is exactly one
SELECT-FROM segment, then an optional WHERE segment, an optional
GROUP BY segment and an optional ORDER BY segment in that order, and the
final clause is always exactly LIMIT 10 regardless of the model. -/
theorem c8_clause_structure :
    ∀ (tid : Option String) (q : SqlQuery),
      compile_query tid q
        = select_part q ++ where_part q ++ group_part q ++ order_part q
          ++ " LIMIT 10"
      ∧ select_part q
        = "SELECT " ++ columns_clause q.columns ++ " FROM "
          ++ q.table_name.value
      ∧ (where_part q = ""
          ∨ where_part q
            = " WHERE "
              ++ String.intercalate " AND "
                (q.conditions.map format_condition))
      ∧ (group_part q = ""
          ∨ group_part q
            = " GROUP BY "
              ++ String.intercalate ", "
                (q.group_by_columns.map format_group_by_column))
      ∧ (order_part q = ""
          ∨ order_part q
            = " ORDER BY "
              ++ String.intercalate ", "
                (q.order_by_columns.map format_order_by_column)) := by
  intro tid q
  refine ⟨?_, rfl, ?_, ?_, ?_⟩
  · rw [compile_query_clauses, str_append_assoc]
    have h10 : (" LIMIT " : String) ++ toString query_limit
        = " LIMIT 10" := by decide
    rw [h10]
  · cases h : q.conditions.isEmpty <;> simp [where_part, h]
  · cases h : q.group_by_columns.isEmpty <;> simp [group_part, h]
  · cases h : q.order_by_columns.isEmpty <;> simp [order_part, h]

/-- Claim C9: every condition renders as the quoted-or-bare column name,
a space, the operator symbol, a space, and the value, with numeric
values as decimal text, string values single-quoted and
column-reference values bare; in particular status = 3, pol = LAX in
single quotes, and departure_date >= date_added. -/
theorem c9_condition_rendering :
    (∀ c : Condition, format_condition c = spec_format_condition c)
    ∧ format_condition ⟨"status", .eq, .int 3⟩ = "status = 3"
    ∧ format_condition ⟨"pol", .eq, .str "LAX"⟩
        = "pol = " ++ squoteStr ++ "LAX" ++ squoteStr
    ∧ format_condition ⟨"departure_date", .ge, .dyn ⟨"date_added"⟩⟩
        = "departure_date >= date_added" := by
  refine ⟨?_, by decide, by decide, by decide⟩
  intro c
  cases c with
  | mk col op v => cases v <;> rfl

/-- Claim C10: run_query always returns a string, with the Result prefix
and the query text on engine success and the Error prefix, the exception
text and the query text on engine failure; consequently the except
branch around the run_query call in the orchestrator is never taken, and
with an always-failing engine the orchestrator delivers the Error string
as the final result of the first attempt instead of retrying. -/
theorem c10_run_query_total :
    (∀ (engine : String → Except String String) (q : String),
        (∃ r, engine q = .ok r
          ∧ run_query engine q
            = "Result: " ++ r ++ " obtained from the query: " ++ q)
        ∨ (∃ e, engine q = .error e
          ∧ run_query engine q
            = "Error: " ++ e ++ " occurred while running the query: " ++ q))
    ∧ (∀ (oracle : Nat → String → Except String SqlQuery)
        (engine : String → Except String String) (tid : Option String)
        (qn ea : String),
        (get_answer_using_sql oracle engine tid qn ea).exec_exception_seen
          = false)
    ∧ (get_answer_using_sql (const_oracle m0)
        (fail_engine "relation does not exist") none "q" "a").attempts = 1
    ∧ (get_answer_using_sql (const_oracle m0)
        (fail_engine "relation does not exist") none "q" "a").result
      = some ("Error: relation does not exist occurred while running the query: SELECT shipment_id FROM shipments LIMIT 10") := by
  refine ⟨?_, ?_, by decide, by decide⟩
  · intro engine q
    cases h : engine q with
    | ok r => exact Or.inl ⟨r, rfl, by simp [run_query, h]⟩
    | error e => exact Or.inr ⟨e, rfl, by simp [run_query, h]⟩
  · intro oracle engine tid qn ea
    have h := sql_loop_ok_runner_exec_seen oracle (run_query engine) tid
      qn ea max_tries 0 none none [] false
    simpa [get_answer_using_sql] using h

end Parkstreet
